import Mathlib

/-!
Shallow embedding of the loyalty-ledger, cart-aggregation and coupon logic of
the zaptthatorder-services repository.

The definitions below are translated from the TypeScript source:
  * `src/controllers/loyalty.controller.ts` (ledger, enrollment, redemption),
  * `src/controllers/cart.controller.ts` (the `addCartItem` variant),
  * the unnamed duplicated cart controller (`addItem` / `updateItem` /
    `removeItem` / `clearCart` variant, which maintains the cart aggregates
    incrementally),
  * `src/controllers/coupon.controller.ts` (`validateCoupon`).

Prisma rows become Lean structures, the database becomes an explicit record of
row lists threaded through each operation, decimal columns become `Rat`,
timestamps become integers (milliseconds), and thrown `AppError`s become
`Except.error` values carrying the exact message and HTTP status of the source.
-/

/-- A row of `loyalty_transactions`.  The source field `type` is called
`txType` here because `type` is reserved in Lean; it is a plain string in the
schema (`@db.VarChar(20)`), not an enum, and `points` is a signed integer
column. `date` is a millisecond timestamp. -/
structure LoyaltyTx where
  id : Nat
  userId : Nat
  txType : String
  points : Int
  description : String
  status : String
  date : Nat
deriving DecidableEq

/-- The callback of the `reduce` inside `calculateTotalPoints`
(`loyalty.controller.ts` lines 100-107): `Earned` adds `points`,
`Redeemed`/`Cancelled`/`Expired` subtract `points`, anything else leaves the
accumulator alone. -/
def pointsStep (sum : Int) (t : LoyaltyTx) : Int :=
  if t.txType = "Earned" then sum + t.points
  else if t.txType = "Redeemed" ∨ t.txType = "Cancelled" ∨ t.txType = "Expired" then
    sum - t.points
  else sum

/-- `calculateTotalPoints` (`loyalty.controller.ts` lines 99-108): fold of
`pointsStep` over the transaction list starting from `0`. -/
def calculateTotalPoints (transactions : List LoyaltyTx) : Int :=
  transactions.foldl pointsStep 0

/-- Transactions of type `Earned` (spec-side predicate). -/
def isEarned (t : LoyaltyTx) : Bool :=
  t.txType == "Earned"

/-- Transactions of one of the three deducting types (spec-side predicate). -/
def isDeduction (t : LoyaltyTx) : Bool :=
  t.txType == "Redeemed" || t.txType == "Cancelled" || t.txType == "Expired"

/-- The balance exactly as the specification words it: the sum of `points`
over `Earned` transactions minus the sum of `points` over
`Redeemed`/`Cancelled`/`Expired` transactions. -/
def specBalance (transactions : List LoyaltyTx) : Int :=
  ((transactions.filter isEarned).map (fun t => t.points)).sum
    - ((transactions.filter isDeduction).map (fun t => t.points)).sum

/-- Signed contribution of a single transaction to the balance. -/
def txContribution (t : LoyaltyTx) : Int :=
  if t.txType = "Earned" then t.points
  else if t.txType = "Redeemed" ∨ t.txType = "Cancelled" ∨ t.txType = "Expired" then
    -t.points
  else 0

theorem pointsStep_eq (a : Int) (t : LoyaltyTx) : pointsStep a t = a + txContribution t := by
  unfold pointsStep txContribution
  split_ifs <;> ring

theorem foldl_pointsStep (ts : List LoyaltyTx) :
    ∀ a : Int, ts.foldl pointsStep a = a + (ts.map txContribution).sum := by
  induction ts with
  | nil => intro a; simp
  | cons t ts ih =>
    intro a
    rw [List.foldl_cons, ih, pointsStep_eq]
    simp [List.sum_cons]
    ring

theorem specBalance_cons (t : LoyaltyTx) (ts : List LoyaltyTx) :
    specBalance (t :: ts) = txContribution t + specBalance ts := by
  by_cases h1 : t.txType = "Earned"
  · have he : isEarned t = true := by
      unfold isEarned
      rw [h1]
      decide
    have hd : isDeduction t = false := by unfold isDeduction; rw [h1]; decide
    simp [specBalance, List.filter_cons, he, hd, txContribution, h1] <;> ring
  · by_cases h2 : t.txType = "Redeemed" ∨ t.txType = "Cancelled" ∨ t.txType = "Expired"
    · have he : isEarned t = false := by
        unfold isEarned
        simp [h1]
      have hd : isDeduction t = true := by
        unfold isDeduction
        rcases h2 with h | h | h <;> simp [h]
      simp [specBalance, List.filter_cons, he, hd, txContribution, h1, h2] <;> ring
    · have he : isEarned t = false := by
        unfold isEarned
        simp [h1]
      have hd : isDeduction t = false := by
        unfold isDeduction
        push_neg at h2
        simp [h2.1, h2.2.1, h2.2.2]
      simp [specBalance, List.filter_cons, he, hd, txContribution, h1, h2] <;> ring

theorem contribution_sum_eq_specBalance (ts : List LoyaltyTx) :
    (ts.map txContribution).sum = specBalance ts := by
  induction ts with
  | nil => simp [specBalance]
  | cons t ts ih =>
    rw [List.map_cons, List.sum_cons, ih, specBalance_cons]

/-- Core fold/spec agreement, shared by several claim theorems. -/
theorem calculateTotalPoints_eq_specBalance (ts : List LoyaltyTx) :
    calculateTotalPoints ts = specBalance ts := by
  rw [calculateTotalPoints, foldl_pointsStep, contribution_sum_eq_specBalance]
  ring

/-- A row of `loyalty_enrollments`. -/
structure LoyaltyEnrollment where
  userId : Nat
  tierName : String
  enrolledAt : Nat
deriving DecidableEq

/-- A row of `loyalty_tiers` (`multiplier` is `Decimal(3,2)`, modelled as `Rat`). -/
structure LoyaltyTier where
  name : String
  requiredPoints : Int
  multiplier : Rat
deriving DecidableEq

/-- A row of `loyalty_tier_perks`. -/
structure LoyaltyTierPerk where
  tierName : String
  perk : String
deriving DecidableEq

/-- A row of `loyalty_rewards`.  The source field `type` is called
`rewardType` here. -/
structure LoyaltyReward where
  id : Nat
  name : String
  pointsRequired : Int
  description : String
  validityDays : Nat
  rewardType : String
  value : Rat
  isActive : Bool
deriving DecidableEq

/-- A row of `coupons`.  The source field `type` is called `couponType` here;
`expiresAt` is a millisecond timestamp. -/
structure Coupon where
  id : Nat
  userId : Option Nat
  code : String
  value : Rat
  couponType : String
  expiresAt : Int
  isUsed : Bool
deriving DecidableEq

/-- An `AppError(message, statusCode)` thrown by the controllers. -/
structure AppError where
  message : String
  statusCode : Nat
deriving DecidableEq

/-- The loyalty-related tables of the relational store, threaded explicitly
through each controller operation. -/
structure LoyaltyDb where
  tiers : List LoyaltyTier
  perks : List LoyaltyTierPerk
  enrollments : List LoyaltyEnrollment
  rewards : List LoyaltyReward
  transactions : List LoyaltyTx
  coupons : List Coupon
deriving DecidableEq

/-- `prisma.loyaltyTransaction.findMany({where: {userId}})`. -/
def userTransactions (db : LoyaltyDb) (userId : Nat) : List LoyaltyTx :=
  db.transactions.filter (fun t => t.userId == userId)

/-- The balance the controllers derive for a user: `calculateTotalPoints` over
that user's transactions (used by `getLoyaltyStatus` and `redeemReward`). -/
def getBalance (db : LoyaltyDb) (userId : Nat) : Int :=
  calculateTotalPoints (userTransactions db userId)

/-- The `Redeemed` transaction built by `redeemReward`
(`loyalty.controller.ts` lines 336-345). -/
def redeemTx (userId : Nat) (reward : LoyaltyReward) (now nextTxId : Nat) : LoyaltyTx :=
  ⟨nextTxId, userId, "Redeemed", reward.pointsRequired,
    "Redeemed " ++ reward.name, "Completed", now⟩

/-- `redeemReward` (`loyalty.controller.ts` lines 306-358): looks up the
reward, folds the user's transactions into a balance, rejects if the balance
is below `pointsRequired`, and appends a `Completed`/`Redeemed` transaction
for `pointsRequired` points.  The source performs no `isActive` check here and
writes no coupon. -/
def redeemReward (db : LoyaltyDb) (userId rewardId now nextTxId : Nat) :
    Except AppError (LoyaltyTx × LoyaltyReward) × LoyaltyDb :=
  if userId = 0 then (.error ⟨"User not authenticated", 401⟩, db)
  else
    match db.rewards.find? (fun r => r.id == rewardId) with
    | none => (.error ⟨"Reward not found", 404⟩, db)
    | some reward =>
      if calculateTotalPoints (db.transactions.filter (fun t => t.userId == userId))
          < reward.pointsRequired then
        (.error ⟨"Insufficient points", 400⟩, db)
      else
        (.ok (redeemTx userId reward now nextTxId, reward),
         {db with transactions := db.transactions ++ [redeemTx userId reward now nextTxId]})

/-- The coupon built by `redeemPoints` (`loyalty.controller.ts` lines
600-609): code `LOYALTY-<timestamp>`, the reward's value and type, expiry
`now + validityDays * 24h`, unused. -/
def loyaltyCoupon (reward : LoyaltyReward) (now nextCouponId : Nat) : Coupon :=
  ⟨nextCouponId, none, "LOYALTY-" ++ toString now, reward.value, reward.rewardType,
    (now : Int) + reward.validityDays * (24 * 60 * 60 * 1000), false⟩

/-- `redeemPoints` (`loyalty.controller.ts` lines 555-626): requires truthy
`points` and `rewardId`, computes the balance through `getLoyaltyStatus`
(which requires an enrollment and its tier), rejects if the balance is below
the request-supplied `points`, then fetches the reward, rejects if missing or
inactive, appends a `Redeemed` transaction for the request-supplied `points`,
and creates the loyalty coupon.  The response carries the coupon only. -/
def redeemPoints (db : LoyaltyDb) (userId : Nat) (points : Int)
    (rewardId now nextTxId nextCouponId : Nat) : Except AppError Coupon × LoyaltyDb :=
  if userId = 0 then (.error ⟨"User not authenticated", 401⟩, db)
  else if points = 0 ∨ rewardId = 0 then
    (.error ⟨"Points and reward ID are required", 400⟩, db)
  else
    match db.enrollments.find? (fun e => e.userId == userId) with
    | none => (.error ⟨"User not enrolled in loyalty program", 404⟩, db)
    | some enrollment =>
      match db.tiers.find? (fun t => t.name == enrollment.tierName) with
      | none => (.error ⟨"Tier not found", 404⟩, db)
      | some _tier =>
        if calculateTotalPoints (db.transactions.filter (fun t => t.userId == userId))
            < points then
          (.error ⟨"Insufficient points", 400⟩, db)
        else
          match db.rewards.find? (fun r => r.id == rewardId) with
          | none => (.error ⟨"Reward not found", 404⟩, db)
          | some reward =>
            if reward.isActive = false then (.error ⟨"Reward is not active", 400⟩, db)
            else
              (.ok (loyaltyCoupon reward now nextCouponId),
               {db with transactions := db.transactions ++
                  [⟨nextTxId, userId, "Redeemed", points,
                    "Redeemed " ++ toString points ++ " points for reward: " ++ reward.name,
                    "Completed", now⟩],
                        coupons := db.coupons ++ [loyaltyCoupon reward now nextCouponId]})

/-- The tier summary returned by `enrollInLoyalty`. -/
structure EnrollmentResult where
  name : String
  multiplier : Rat
  perks : List String
deriving DecidableEq

/-- Perk strings of a tier (`prisma.loyaltyTierPerk.findMany({where: {tierName}})`). -/
def tierPerks (db : LoyaltyDb) (tierName : String) : List String :=
  (db.perks.filter (fun p => p.tierName == tierName)).map (fun p => p.perk)

/-- `enrollInLoyalty` (`loyalty.controller.ts` lines 360-414): rejects a
second enrollment, finds the tier with `requiredPoints = 0`, rejects with a
500 if it is absent, appends the enrollment row and returns the tier with its
perks. -/
def enrollInLoyalty (db : LoyaltyDb) (userId now : Nat) :
    Except AppError EnrollmentResult × LoyaltyDb :=
  if userId = 0 then (.error ⟨"User not authenticated", 401⟩, db)
  else
    match db.enrollments.find? (fun e => e.userId == userId) with
    | some _ => (.error ⟨"User already enrolled in loyalty program", 400⟩, db)
    | none =>
      match db.tiers.find? (fun t => t.requiredPoints == 0) with
      | none => (.error ⟨"Base tier not found", 500⟩, db)
      | some baseTier =>
        (.ok ⟨baseTier.name, baseTier.multiplier, tierPerks db baseTier.name⟩,
         {db with enrollments := db.enrollments ++ [⟨userId, baseTier.name, now⟩]})

/-- `createTransaction` (`loyalty.controller.ts` lines 477-504): persists the
request body verbatim — type, points, description and status are stored with
no validation of any kind. -/
def createTransaction (db : LoyaltyDb) (userId : Nat) (txType : String) (points : Int)
    (description status : String) (now nextTxId : Nat) :
    Except AppError LoyaltyTx × LoyaltyDb :=
  if userId = 0 then (.error ⟨"User not authenticated", 401⟩, db)
  else
    (.ok ⟨nextTxId, userId, txType, points, description, status, now⟩,
     {db with transactions := db.transactions ++ [⟨nextTxId, userId, txType, points, description, status, now⟩]})

/-- `updateTransactionStatus` (`loyalty.controller.ts` lines 506-520):
overwrites the `status` of the transaction with the given id. -/
def updateTransactionStatus (db : LoyaltyDb) (id : Nat) (status : String) : LoyaltyDb :=
  {db with transactions :=
    db.transactions.map (fun t => if t.id == id then {t with status := status} else t)}

/-- One ledger-mutating request, for stating properties over arbitrary
operation sequences. -/
inductive LedgerOp where
  | create (userId : Nat) (txType : String) (points : Int) (description status : String)
      (now nextTxId : Nat)
  | redeemR (userId rewardId now nextTxId : Nat)
  | redeemP (userId : Nat) (points : Int) (rewardId now nextTxId nextCouponId : Nat)
  | enroll (userId now : Nat)
  | setStatus (id : Nat) (status : String)

/-- State effect of a single ledger operation. -/
def applyLedgerOp (db : LoyaltyDb) : LedgerOp → LoyaltyDb
  | .create u ty pts d st now i => (createTransaction db u ty pts d st now i).2
  | .redeemR u r now i => (redeemReward db u r now i).2
  | .redeemP u pts r now i ci => (redeemPoints db u pts r now i ci).2
  | .enroll u now => (enrollInLoyalty db u now).2
  | .setStatus i st => updateTransactionStatus db i st

/-- State after a sequence of ledger operations. -/
def applyLedgerOps (db : LoyaltyDb) (ops : List LedgerOp) : LoyaltyDb :=
  ops.foldl applyLedgerOp db

/-- C1: for every user, the balance computed by the ledger
(`getBalance`, i.e. `calculateTotalPoints` over the user's transactions)
equals the spec's signed sum — `+points` for `Earned` transactions minus
`points` for `Redeemed`/`Cancelled`/`Expired` ones — and this holds in every
database state, in particular after any sequence of ledger operations. -/
theorem getBalance_eq_specBalance (ops : List LedgerOp) (db : LoyaltyDb) (userId : Nat) :
    getBalance (applyLedgerOps db ops) userId
      = specBalance (userTransactions (applyLedgerOps db ops) userId) :=
  calculateTotalPoints_eq_specBalance _

/-- A loyalty transaction with the `status` column removed. -/
structure LoyaltyTxSansStatus where
  id : Nat
  userId : Nat
  txType : String
  points : Int
  description : String
  date : Nat
deriving DecidableEq

/-- Forget the `status` field of a transaction. -/
def dropStatus (t : LoyaltyTx) : LoyaltyTxSansStatus :=
  ⟨t.id, t.userId, t.txType, t.points, t.description, t.date⟩

/-- `pointsStep` on status-free transactions. -/
def pointsStepSans (sum : Int) (t : LoyaltyTxSansStatus) : Int :=
  if t.txType = "Earned" then sum + t.points
  else if t.txType = "Redeemed" ∨ t.txType = "Cancelled" ∨ t.txType = "Expired" then
    sum - t.points
  else sum

/-- `calculateTotalPoints` on status-free transactions. -/
def calculateTotalPointsSans (ts : List LoyaltyTxSansStatus) : Int :=
  ts.foldl pointsStepSans 0

theorem calculateTotalPoints_factors (ts : List LoyaltyTx) :
    calculateTotalPoints ts = calculateTotalPointsSans (ts.map dropStatus) := by
  unfold calculateTotalPoints calculateTotalPointsSans
  rw [List.foldl_map]
  rfl

/-- C10: the computed balance does not depend on the `status` column — any
two transaction lists that agree after erasing `status` produce the same
`calculateTotalPoints` value, so a `Pending` transaction counts exactly like
a `Completed` one. -/
theorem balance_independent_of_status (ts1 ts2 : List LoyaltyTx)
    (h : ts1.map dropStatus = ts2.map dropStatus) :
    calculateTotalPoints ts1 = calculateTotalPoints ts2 := by
  rw [calculateTotalPoints_factors, calculateTotalPoints_factors, h]

/-- Witness for C10 at a concrete pair of lists: a `Pending` earned
transaction contributes like a `Completed` one. -/
theorem balance_independent_of_status_witness :
    calculateTotalPoints [⟨1, 7, "Earned", 250, "order", "Pending", 0⟩]
      = calculateTotalPoints [⟨1, 7, "Earned", 250, "order", "Completed", 0⟩] :=
  balance_independent_of_status
    [⟨1, 7, "Earned", 250, "order", "Pending", 0⟩]
    [⟨1, 7, "Earned", 250, "order", "Completed", 0⟩]
    (by decide)

/-- C3 (amended): `redeemReward` fails with `Reward not found` when the
reward is missing, fails with `Insufficient points` exactly when the user's
folded balance is below `pointsRequired`, and otherwise appends exactly one
`Redeemed` transaction whose points equal `pointsRequired`, leaving the
coupon table untouched.  No `isActive` check is performed on this path. -/
theorem redeemReward_cases (db : LoyaltyDb) (userId rewardId now nextTxId : Nat)
    (hu : userId ≠ 0) :
    (db.rewards.find? (fun r => r.id == rewardId) = none →
      redeemReward db userId rewardId now nextTxId
        = (.error ⟨"Reward not found", 404⟩, db)) ∧
    (∀ reward, db.rewards.find? (fun r => r.id == rewardId) = some reward →
      (getBalance db userId < reward.pointsRequired →
        redeemReward db userId rewardId now nextTxId
          = (.error ⟨"Insufficient points", 400⟩, db)) ∧
      (reward.pointsRequired ≤ getBalance db userId →
        redeemReward db userId rewardId now nextTxId
          = (.ok (redeemTx userId reward now nextTxId, reward),
             {db with transactions := db.transactions ++ [redeemTx userId reward now nextTxId]}) ∧
        (redeemTx userId reward now nextTxId).txType = "Redeemed" ∧
        (redeemTx userId reward now nextTxId).points = reward.pointsRequired ∧
        ({db with transactions := db.transactions ++ [redeemTx userId reward now nextTxId]}).coupons
          = db.coupons)) := by
  have hbal : getBalance db userId
      = calculateTotalPoints (db.transactions.filter (fun t => t.userId == userId)) := rfl
  refine ⟨fun hf => ?_, fun reward hf => ⟨fun hlt => ?_, fun hge => ?_⟩⟩
  · simp [redeemReward, hu, hf]
  · rw [hbal] at hlt
    simp [redeemReward, hu, hf, hlt]
  · have hnlt : ¬ calculateTotalPoints (db.transactions.filter (fun t => t.userId == userId))
        < reward.pointsRequired := by
      rw [← hbal]
      exact not_lt.mpr hge
    refine ⟨?_, rfl, rfl, rfl⟩
    simp [redeemReward, hu, hf, hnlt]

/-- Reward used by the C3 witness. -/
def wReward : LoyaltyReward := ⟨1, "Free Shipping", 200, "", 7, "Fixed", 5, true⟩

/-- Database used by the C3 witness. -/
def wDb : LoyaltyDb :=
  ⟨[], [], [], [wReward], [⟨1, 1, "Earned", 250, "order", "Completed", 0⟩], []⟩

/-- Witness for C3 at a concrete database: a reward is redeemed and the
`Redeemed` transaction is appended. -/
theorem redeemReward_cases_witness :
    redeemReward wDb 1 1 5 9
      = (.ok (redeemTx 1 wReward 5 9, wReward),
         {wDb with transactions := wDb.transactions ++ [redeemTx 1 wReward 5 9]}) := by
  have h := ((redeemReward_cases wDb 1 1 5 9 (by decide)).2 wReward (by rfl)).2 (by decide)
  exact h.1

/-- An inactive reward, for the C3 counterexample. -/
def inactiveReward : LoyaltyReward := ⟨1, "Inactive Reward", 0, "", 7, "Fixed", 5, false⟩

/-- Database holding only the inactive reward. -/
def inactiveDb : LoyaltyDb := ⟨[], [], [], [inactiveReward], [], []⟩

/-- Counterexample to C3 as stated: `redeemReward` succeeds on a reward whose
`isActive` is `false` — no `RewardInactive` failure exists on this path. -/
theorem redeemReward_inactive_reward_succeeds :
    inactiveReward.isActive = false ∧
    (redeemReward inactiveDb 1 1 1000 1).1
      = .ok (redeemTx 1 inactiveReward 1000 1, inactiveReward) :=
  ⟨rfl, rfl⟩

/-- C4 (amended): every successful `redeemPoints` call creates exactly one
coupon carrying the reward's `value` and `type`, expiry
`now + validityDays × 24h`, `isUsed = false` and code `LOYALTY-<timestamp>`,
appended to the coupon table; the call returns the coupon (the transaction is
not part of the response). -/
theorem redeemPoints_coupon_shape (db : LoyaltyDb) (userId : Nat) (points : Int)
    (rewardId now nextTxId nextCouponId : Nat) (c : Coupon) (db2 : LoyaltyDb)
    (h : redeemPoints db userId points rewardId now nextTxId nextCouponId = (.ok c, db2)) :
    ∃ reward, db.rewards.find? (fun r => r.id == rewardId) = some reward ∧
      reward.isActive = true ∧
      c.value = reward.value ∧
      c.couponType = reward.rewardType ∧
      c.expiresAt = (now : Int) + reward.validityDays * (24 * 60 * 60 * 1000) ∧
      c.isUsed = false ∧
      c.code = "LOYALTY-" ++ toString now ∧
      db2.coupons = db.coupons ++ [c] := by
  unfold redeemPoints at h
  by_cases h0 : userId = 0
  · simp [h0] at h
  simp only [h0, if_false] at h
  by_cases h1 : points = 0 ∨ rewardId = 0
  · simp [h1] at h
  simp only [h1, if_false] at h
  cases he : db.enrollments.find? (fun e => e.userId == userId) with
  | none => simp [he] at h
  | some enrollment =>
    simp only [he] at h
    cases ht : db.tiers.find? (fun t => t.name == enrollment.tierName) with
    | none => simp [ht] at h
    | some tier =>
      simp only [ht] at h
      by_cases h2 : calculateTotalPoints (db.transactions.filter (fun t => t.userId == userId))
          < points
      · simp [h2] at h
      simp only [h2, if_false] at h
      cases hr : db.rewards.find? (fun r => r.id == rewardId) with
      | none => simp [hr] at h
      | some reward =>
        simp only [hr] at h
        by_cases ha : reward.isActive = false
        · simp [ha] at h
        rw [if_neg ha] at h
        simp only [Prod.mk.injEq, Except.ok.injEq] at h
        obtain ⟨hc, hdb⟩ := h
        subst hc
        subst hdb
        refine ⟨reward, rfl, ?_, rfl, rfl, rfl, rfl, rfl, rfl⟩
        revert ha
        cases reward.isActive <;> simp

/-- Reward used by the C4 witness. -/
def activeReward : LoyaltyReward := ⟨2, "Discount", 10, "", 3, "Percentage", 10, true⟩

/-- Database used by the C4 witness: an enrolled user with 50 earned points. -/
def activeDb : LoyaltyDb :=
  ⟨[⟨"Bronze", 0, 1⟩], [], [⟨1, "Bronze", 0⟩], [activeReward],
   [⟨1, 1, "Earned", 50, "order", "Completed", 0⟩], []⟩

/-- Witness for C4 at a concrete database. -/
theorem redeemPoints_coupon_shape_witness :
    ∃ reward, activeDb.rewards.find? (fun r => r.id == 2) = some reward ∧
      reward.isActive = true ∧
      (loyaltyCoupon activeReward 1000 5).value = reward.value ∧
      (loyaltyCoupon activeReward 1000 5).couponType = reward.rewardType ∧
      (loyaltyCoupon activeReward 1000 5).expiresAt
        = (1000 : Int) + reward.validityDays * (24 * 60 * 60 * 1000) ∧
      (loyaltyCoupon activeReward 1000 5).isUsed = false ∧
      (loyaltyCoupon activeReward 1000 5).code = "LOYALTY-" ++ toString 1000 ∧
      ((redeemPoints activeDb 1 20 2 1000 9 5).2).coupons
        = activeDb.coupons ++ [loyaltyCoupon activeReward 1000 5] := by
  exact redeemPoints_coupon_shape activeDb 1 20 2 1000 9 5
    (loyaltyCoupon activeReward 1000 5) (redeemPoints activeDb 1 20 2 1000 9 5).2 (by rfl)

/-- Counterexample to C4 as stated: `redeemReward` is a successful redemption
that creates no coupon at all — the coupon table is unchanged. -/
theorem redeemReward_creates_no_coupon :
    (redeemReward wDb 1 1 5 9).1 = .ok (redeemTx 1 wReward 5 9, wReward) ∧
    ((redeemReward wDb 1 1 5 9).2).coupons = wDb.coupons :=
  ⟨rfl, rfl⟩

/-- C8: `enrollInLoyalty` fails with the already-enrolled conflict (and
leaves the state unchanged) whenever an enrollment row exists; otherwise it
resolves the tier with `requiredPoints = 0`, fails with a configuration
error if that tier is absent, and appends exactly one enrollment row bound
to the base tier, returning the tier and its perks. -/
theorem enrollInLoyalty_cases (db : LoyaltyDb) (userId now : Nat) (hu : userId ≠ 0) :
    (∀ e, db.enrollments.find? (fun x => x.userId == userId) = some e →
       enrollInLoyalty db userId now
         = (.error ⟨"User already enrolled in loyalty program", 400⟩, db)) ∧
    (db.enrollments.find? (fun x => x.userId == userId) = none →
       (db.tiers.find? (fun t => t.requiredPoints == 0) = none →
          enrollInLoyalty db userId now = (.error ⟨"Base tier not found", 500⟩, db)) ∧
       (∀ baseTier, db.tiers.find? (fun t => t.requiredPoints == 0) = some baseTier →
          enrollInLoyalty db userId now
            = (.ok ⟨baseTier.name, baseTier.multiplier, tierPerks db baseTier.name⟩,
               {db with enrollments := db.enrollments ++ [⟨userId, baseTier.name, now⟩]}))) := by
  refine ⟨fun e he => ?_, fun hn => ⟨fun ht => ?_, fun baseTier ht => ?_⟩⟩
  · simp [enrollInLoyalty, hu, he]
  · simp [enrollInLoyalty, hu, hn, ht]
  · simp [enrollInLoyalty, hu, hn, ht]

/-- Database used by the C8 witness. -/
def enrollDb : LoyaltyDb :=
  ⟨[⟨"Bronze", 0, 1⟩], [⟨"Bronze", "free shipping"⟩], [], [], [], []⟩

/-- Witness for C8 at a concrete database: enrolling a fresh user binds them
to the base tier and returns its perks. -/
theorem enrollInLoyalty_cases_witness :
    enrollInLoyalty enrollDb 4 10
      = (.ok ⟨"Bronze", 1, ["free shipping"]⟩,
         {enrollDb with enrollments := [⟨4, "Bronze", 10⟩]}) := by
  have h := ((enrollInLoyalty_cases enrollDb 4 10 (by decide)).2 (by rfl)).2
    ⟨"Bronze", 0, 1⟩ (by rfl)
  exact h.trans (by rfl)

/-- C9 (amended): `createTransaction` performs no validation at all — for an
authenticated user every call succeeds and persists the row exactly as given,
whatever the `type` string and however negative the `points`. -/
theorem createTransaction_no_validation (db : LoyaltyDb) (userId : Nat) (txType : String)
    (points : Int) (description status : String) (now nextTxId : Nat) (hu : userId ≠ 0) :
    createTransaction db userId txType points description status now nextTxId
      = (.ok ⟨nextTxId, userId, txType, points, description, status, now⟩,
         {db with transactions :=
            db.transactions ++ [⟨nextTxId, userId, txType, points, description, status, now⟩]}) := by
  unfold createTransaction
  rw [if_neg hu]

/-- Witness for C9 at a concrete call. -/
theorem createTransaction_no_validation_witness :
    createTransaction ⟨[], [], [], [], [], []⟩ 1 "Promo" 30 "gift" "Pending" 2 1
      = (.ok ⟨1, 1, "Promo", 30, "gift", "Pending", 2⟩,
         ⟨[], [], [], [], [⟨1, 1, "Promo", 30, "gift", "Pending", 2⟩], []⟩) := by
  exact createTransaction_no_validation ⟨[], [], [], [], [], []⟩ 1 "Promo" 30 "gift"
    "Pending" 2 1 (by decide)

/-- Counterexample to C9 as stated: a call with a `type` outside the four
enumerated kinds and negative `points` succeeds and persists the row, instead
of failing with `InvalidInput`. -/
theorem createTransaction_accepts_invalid_input :
    (createTransaction ⟨[], [], [], [], [], []⟩ 2 "Bogus" (-5) "bad" "Pending" 3 1).1
        = .ok ⟨1, 2, "Bogus", -5, "bad", "Pending", 3⟩ ∧
    (createTransaction ⟨[], [], [], [], [], []⟩ 2 "Bogus" (-5) "bad" "Pending" 3 1).2.transactions
        = [⟨1, 2, "Bogus", -5, "bad", "Pending", 3⟩] :=
  ⟨rfl, rfl⟩

/-- A row of `products` (`price` is `Decimal(10,2)`, modelled as `Rat`). -/
structure Product where
  id : Nat
  name : String
  price : Rat
  originalPrice : Option Rat
  image : String
  loyaltyPoints : Int
  stock : Int
deriving DecidableEq

/-- A row of `cart_items`; `size`/`color` are nullable strings. -/
structure CartItem where
  id : Nat
  cartId : Nat
  productId : Nat
  quantity : Int
  size : Option String
  color : Option String
deriving DecidableEq

/-- A row of `carts`, with the three persisted derived aggregates. -/
structure Cart where
  id : Nat
  userId : Nat
  subtotal : Rat
  total : Rat
  estimatedLoyaltyPoints : Int
deriving DecidableEq

/-- The cart-related tables, plus the autoincrement counters for fresh ids. -/
structure CartDb where
  products : List Product
  carts : List Cart
  items : List CartItem
  nextCartId : Nat
  nextItemId : Nat
deriving DecidableEq

/-- Get-or-create of the user's cart shared by both `addItem` variants; a
fresh cart is created with all aggregates zero. -/
def getOrCreateCart (db : CartDb) (userId : Nat) : Cart × CartDb :=
  match db.carts.find? (fun c => c.userId == userId) with
  | some cart => (cart, db)
  | none =>
    (⟨db.nextCartId, userId, 0, 0, 0⟩,
     {db with carts := db.carts ++ [⟨db.nextCartId, userId, 0, 0, 0⟩],
              nextCartId := db.nextCartId + 1})

/-- `addItem` of the duplicated cart controller (unnamed source, lines
93-192): get-or-create the cart, look up the product (404 if missing — there
is no stock check), always insert a fresh `CartItem` row, then bump the
cart's `subtotal`/`total` by `price × quantity` and its
`estimatedLoyaltyPoints` by `loyaltyPoints × quantity`. -/
def addItem (db : CartDb) (userId productId : Nat) (quantity : Int)
    (size color : Option String) : Except AppError CartItem × CartDb :=
  if userId = 0 then (.error ⟨"Unauthorized", 401⟩, db)
  else
    match getOrCreateCart db userId with
    | (cart, db1) =>
      match db1.products.find? (fun p => p.id == productId) with
      | none => (.error ⟨"Product not found", 404⟩, db1)
      | some product =>
        (.ok ⟨db1.nextItemId, cart.id, productId, quantity, size, color⟩,
         {db1 with
           items := db1.items ++ [⟨db1.nextItemId, cart.id, productId, quantity, size, color⟩],
           nextItemId := db1.nextItemId + 1,
           carts := db1.carts.map (fun c =>
             if c.id == cart.id then
               {cart with
                 subtotal := cart.subtotal + product.price * (quantity : Rat),
                 total := cart.total + product.price * (quantity : Rat),
                 estimatedLoyaltyPoints :=
                   cart.estimatedLoyaltyPoints + product.loyaltyPoints * quantity}
             else c)})

/-- `updateItem` of the duplicated cart controller (lines 195-287): requires
the user's cart and an item of that cart, rewrites quantity/size/color, and
applies the aggregate deltas `price × (newQty − oldQty)` computed from the
product's current price.  The product lookup mirrors the `include
product` of the source; its failure corresponds to the generic 500 catch. -/
def updateItem (db : CartDb) (userId itemId : Nat) (quantity : Int)
    (size color : Option String) : Except AppError CartItem × CartDb :=
  if userId = 0 then (.error ⟨"Unauthorized", 401⟩, db)
  else
    match db.carts.find? (fun c => c.userId == userId) with
    | none => (.error ⟨"Cart not found", 404⟩, db)
    | some cart =>
      match db.items.find? (fun i => i.id == itemId) with
      | none => (.error ⟨"Item not found in cart", 404⟩, db)
      | some item =>
        if item.cartId ≠ cart.id then (.error ⟨"Item not found in cart", 404⟩, db)
        else
          match db.products.find? (fun p => p.id == item.productId) with
          | none => (.error ⟨"Failed to update cart item", 500⟩, db)
          | some product =>
            (.ok {item with quantity := quantity, size := size, color := color},
             {db with
               items := db.items.map (fun i =>
                 if i.id == itemId then
                   {item with quantity := quantity, size := size, color := color}
                 else i),
               carts := db.carts.map (fun c =>
                 if c.id == cart.id then
                   {cart with
                     subtotal := cart.subtotal
                       + (product.price * (quantity : Rat)
                          - product.price * (item.quantity : Rat)),
                     total := cart.total
                       + (product.price * (quantity : Rat)
                          - product.price * (item.quantity : Rat)),
                     estimatedLoyaltyPoints := cart.estimatedLoyaltyPoints
                       + (product.loyaltyPoints * quantity
                          - product.loyaltyPoints * item.quantity)}
                 else c)})

/-- `removeItem` of the duplicated cart controller (lines 290-341): requires
the user's cart and an item of that cart, deletes the row and subtracts its
contribution from the aggregates. -/
def removeItem (db : CartDb) (userId itemId : Nat) : Except AppError Unit × CartDb :=
  if userId = 0 then (.error ⟨"Unauthorized", 401⟩, db)
  else
    match db.carts.find? (fun c => c.userId == userId) with
    | none => (.error ⟨"Cart not found", 404⟩, db)
    | some cart =>
      match db.items.find? (fun i => i.id == itemId) with
      | none => (.error ⟨"Item not found in cart", 404⟩, db)
      | some item =>
        if item.cartId ≠ cart.id then (.error ⟨"Item not found in cart", 404⟩, db)
        else
          match db.products.find? (fun p => p.id == item.productId) with
          | none => (.error ⟨"Failed to remove item from cart", 500⟩, db)
          | some product =>
            (.ok (),
             {db with
               items := db.items.filter (fun i => i.id != itemId),
               carts := db.carts.map (fun c =>
                 if c.id == cart.id then
                   {cart with
                     subtotal := cart.subtotal - product.price * (item.quantity : Rat),
                     total := cart.total - product.price * (item.quantity : Rat),
                     estimatedLoyaltyPoints := cart.estimatedLoyaltyPoints
                       - product.loyaltyPoints * item.quantity}
                 else c)})

/-- `clearCart` of the duplicated cart controller (lines 344-378): deletes
every item of the user's cart and zeroes all three aggregates. -/
def clearCart (db : CartDb) (userId : Nat) : Except AppError Unit × CartDb :=
  if userId = 0 then (.error ⟨"Unauthorized", 401⟩, db)
  else
    match db.carts.find? (fun c => c.userId == userId) with
    | none => (.error ⟨"Cart not found", 404⟩, db)
    | some cart =>
      (.ok (),
       {db with
         items := db.items.filter (fun i => i.cartId != cart.id),
         carts := db.carts.map (fun c =>
           if c.id == cart.id then
             {cart with subtotal := 0, total := 0, estimatedLoyaltyPoints := 0}
           else c)})

/-- `addCartItem` of `src/controllers/cart.controller.ts` (lines 118-222):
validates the product and its stock against the added quantity, get-or-create
the cart (the source's create sends only `userId`; zeros model the absent
aggregate columns), merges into an existing row with identical
`(cartId, productId, size, color)` after re-validating stock against the
merged total, otherwise inserts a new row.  This variant never touches the
cart's aggregate columns. -/
def addCartItem (db : CartDb) (userId productId : Nat) (quantity : Int)
    (size color : Option String) : Except AppError CartItem × CartDb :=
  if userId = 0 then (.error ⟨"User not authenticated", 401⟩, db)
  else
    match db.products.find? (fun p => p.id == productId) with
    | none => (.error ⟨"Product not found", 404⟩, db)
    | some product =>
      if product.stock < quantity then
        (.error ⟨"Only " ++ toString product.stock ++ " items available in stock", 400⟩, db)
      else
        match getOrCreateCart db userId with
        | (cart, db1) =>
          match db1.items.find? (fun i =>
              i.cartId == cart.id && i.productId == productId
                && i.size == size && i.color == color) with
          | some existingItem =>
            if product.stock < existingItem.quantity + quantity then
              (.error ⟨"Only " ++ toString product.stock ++ " items available in stock", 400⟩,
               db1)
            else
              (.ok {existingItem with quantity := existingItem.quantity + quantity},
               {db1 with items := db1.items.map (fun i =>
                  if i.id == existingItem.id then
                    {existingItem with quantity := existingItem.quantity + quantity}
                  else i)})
          | none =>
            (.ok ⟨db1.nextItemId, cart.id, productId, quantity, size, color⟩,
             {db1 with
               items := db1.items ++ [⟨db1.nextItemId, cart.id, productId, quantity, size, color⟩],
               nextItemId := db1.nextItemId + 1})

/-- Current price of a product id (0 if the product is absent), the price the
controllers read at operation time. -/
def priceOf (products : List Product) (productId : Nat) : Rat :=
  match products.find? (fun p => p.id == productId) with
  | some p => p.price
  | none => 0

/-- Current loyalty points of a product id (0 if absent). -/
def pointsOf (products : List Product) (productId : Nat) : Int :=
  match products.find? (fun p => p.id == productId) with
  | some p => p.loyaltyPoints
  | none => 0

/-- Independent recomputation of a cart's subtotal from the item table:
`Σ price × quantity` over the items of that cart. -/
def itemsSubtotal (db : CartDb) (cartId : Nat) : Rat :=
  ((db.items.filter (fun i => i.cartId == cartId)).map
    (fun i => priceOf db.products i.productId * (i.quantity : Rat))).sum

/-- Independent recomputation of a cart's estimated loyalty points:
`Σ loyaltyPoints × quantity` over the items of that cart. -/
def itemsPoints (db : CartDb) (cartId : Nat) : Int :=
  ((db.items.filter (fun i => i.cartId == cartId)).map
    (fun i => pointsOf db.products i.productId * i.quantity)).sum

/-- The aggregate-consistency invariant of C2: every persisted cart's
`subtotal` and `estimatedLoyaltyPoints` match the sums recomputed from its
`CartItem` rows. -/
def CartAgg (db : CartDb) : Prop :=
  ∀ c ∈ db.carts, c.subtotal = itemsSubtotal db c.id
    ∧ c.estimatedLoyaltyPoints = itemsPoints db c.id

/-- Structural well-formedness of the cart store: item ids are unique and the
autoincrement counters dominate every persisted id. -/
def CartWF (db : CartDb) : Prop :=
  (db.items.map (fun i => i.id)).Nodup
    ∧ (∀ c ∈ db.carts, c.id < db.nextCartId)
    ∧ (∀ i ∈ db.items, i.cartId < db.nextCartId)
    ∧ (∀ i ∈ db.items, i.id < db.nextItemId)

/-- Combined invariant threaded through the aggregate-preservation proof. -/
def CartInv (db : CartDb) : Prop :=
  CartWF db ∧ CartAgg db

/-- C5 (amended): `addCartItem` — the `cart.controller.ts` variant — merges an
add into an existing row with identical `(cartId, productId, size, color)` by
incrementing its quantity, re-validating stock against the post-merge total,
and inserts a fresh row otherwise.  (The duplicated controller's `addItem`
never merges; see the counterexample.) -/
theorem addCartItem_merge_behavior (db : CartDb) (userId productId : Nat) (quantity : Int)
    (size color : Option String) (hu : userId ≠ 0)
    (product : Product)
    (hp : db.products.find? (fun p => p.id == productId) = some product)
    (hq : ¬ product.stock < quantity)
    (cart : Cart)
    (hc : db.carts.find? (fun c => c.userId == userId) = some cart) :
    (∀ existingItem,
       db.items.find? (fun i => i.cartId == cart.id && i.productId == productId
           && i.size == size && i.color == color) = some existingItem →
       (¬ product.stock < existingItem.quantity + quantity →
          addCartItem db userId productId quantity size color
            = (.ok {existingItem with quantity := existingItem.quantity + quantity},
               {db with items := db.items.map (fun i =>
                  if i.id == existingItem.id then
                    {existingItem with quantity := existingItem.quantity + quantity}
                  else i)})) ∧
       (product.stock < existingItem.quantity + quantity →
          addCartItem db userId productId quantity size color
            = (.error ⟨"Only " ++ toString product.stock ++ " items available in stock", 400⟩,
               db))) ∧
    (db.items.find? (fun i => i.cartId == cart.id && i.productId == productId
         && i.size == size && i.color == color) = none →
       addCartItem db userId productId quantity size color
         = (.ok ⟨db.nextItemId, cart.id, productId, quantity, size, color⟩,
            {db with
              items := db.items ++ [⟨db.nextItemId, cart.id, productId, quantity, size, color⟩],
              nextItemId := db.nextItemId + 1})) := by
  have hg : getOrCreateCart db userId = (cart, db) := by
    unfold getOrCreateCart
    rw [hc]
  refine ⟨fun ex hex => ⟨fun hok => ?_, fun hbad => ?_⟩, fun hnone => ?_⟩
  · simp [addCartItem, hu, hp, hq, hg, hex, hok]
  · simp [addCartItem, hu, hp, hq, hg, hex, hbad]
  · simp [addCartItem, hu, hp, hq, hg, hnone]

/-- Product used by the C5 witness and nearby examples. -/
def teeProduct : Product := ⟨1, "Tee", 10, none, "", 3, 10⟩

/-- Database used by the C5 witness: one cart already holding two tees. -/
def mergeDb : CartDb := ⟨[teeProduct], [⟨1, 1, 0, 0, 0⟩], [⟨1, 1, 1, 2, none, none⟩], 2, 2⟩

/-- Witness for C5 at a concrete database: adding three more tees merges into
the existing row, quantity 5. -/
theorem addCartItem_merge_behavior_witness :
    addCartItem mergeDb 1 1 3 none none
      = (.ok ⟨1, 1, 1, 5, none, none⟩,
         {mergeDb with items := [⟨1, 1, 1, 5, none, none⟩]}) := by
  have h := ((addCartItem_merge_behavior mergeDb 1 1 3 none none (by decide) teeProduct
      (by rfl) (by decide) ⟨1, 1, 0, 0, 0⟩ (by rfl)).1 ⟨1, 1, 1, 2, none, none⟩ (by rfl)).1
      (by decide)
  exact h.trans (by rfl)

/-- Database for the C5 counterexample (duplicated controller variant). -/
def dupDb : CartDb := ⟨[teeProduct], [⟨1, 1, 20, 20, 6⟩], [⟨1, 1, 1, 2, none, none⟩], 2, 2⟩

/-- Counterexample to C5 as stated: the duplicated controller's `addItem`
inserts a second row with the same `(cartId, productId, size, color)` key
instead of incrementing the existing row's quantity. -/
theorem addItem_duplicates_rows :
    (addItem dupDb 1 1 1 none none).1 = .ok ⟨2, 1, 1, 1, none, none⟩ ∧
    (addItem dupDb 1 1 1 none none).2.items
      = [⟨1, 1, 1, 2, none, none⟩, ⟨2, 1, 1, 1, none, none⟩] :=
  ⟨rfl, rfl⟩

/-- C6 (amended): every failure of `addCartItem` — missing product,
insufficient stock against the added quantity, or insufficient stock against
the merged quantity — leaves the cart store exactly as it was, provided no
orphaned item row already references the next cart id.  (The duplicated
controller's `addItem` performs no stock check at all; see the
counterexample.) -/
theorem addCartItem_failure_no_change (db : CartDb) (userId productId : Nat) (quantity : Int)
    (size color : Option String) (hu : userId ≠ 0)
    (hfresh : ∀ i ∈ db.items, i.cartId ≠ db.nextCartId) :
    (db.products.find? (fun p => p.id == productId) = none →
       addCartItem db userId productId quantity size color
         = (.error ⟨"Product not found", 404⟩, db)) ∧
    (∀ product, db.products.find? (fun p => p.id == productId) = some product →
       product.stock < quantity →
       addCartItem db userId productId quantity size color
         = (.error ⟨"Only " ++ toString product.stock ++ " items available in stock", 400⟩,
            db)) ∧
    (∀ e, (addCartItem db userId productId quantity size color).1 = .error e →
       (addCartItem db userId productId quantity size color).2 = db) := by
  refine ⟨fun hpo => ?_, fun product hp hlt => ?_, fun e herr => ?_⟩
  · simp [addCartItem, hu, hpo]
  · simp [addCartItem, hu, hp, hlt]
  · cases hp : db.products.find? (fun p => p.id == productId) with
    | none => simp [addCartItem, hu, hp]
    | some product =>
      by_cases hlt : product.stock < quantity
      · simp [addCartItem, hu, hp, hlt]
      · cases hc : db.carts.find? (fun c => c.userId == userId) with
        | some cart =>
          have hg : getOrCreateCart db userId = (cart, db) := by
            unfold getOrCreateCart
            rw [hc]
          cases hex : db.items.find? (fun i => i.cartId == cart.id && i.productId == productId
              && i.size == size && i.color == color) with
          | some ex =>
            by_cases hst : product.stock < ex.quantity + quantity
            · simp [addCartItem, hu, hp, hlt, hg, hex, hst]
            · simp [addCartItem, hu, hp, hlt, hg, hex, hst] at herr
          | none => simp [addCartItem, hu, hp, hlt, hg, hex] at herr
        | none =>
          have hg : getOrCreateCart db userId
              = (⟨db.nextCartId, userId, 0, 0, 0⟩,
                 {db with carts := db.carts ++ [⟨db.nextCartId, userId, 0, 0, 0⟩],
                          nextCartId := db.nextCartId + 1}) := by
            unfold getOrCreateCart
            rw [hc]
          have hex : db.items.find? (fun i => i.cartId == db.nextCartId
              && i.productId == productId && i.size == size && i.color == color) = none := by
            rw [List.find?_eq_none]
            intro i hi
            have hne : (i.cartId == db.nextCartId) = false := by
              simpa using hfresh i hi
            simp [hne]
          simp [addCartItem, hu, hp, hlt, hg, hex] at herr

/-- Witness for C6 at a concrete failing input: a missing product leaves the
store untouched. -/
theorem addCartItem_failure_no_change_witness :
    addCartItem ⟨[], [], [], 1, 1⟩ 1 99 1 none none
      = (.error ⟨"Product not found", 404⟩, ⟨[], [], [], 1, 1⟩) := by
  exact (addCartItem_failure_no_change ⟨[], [], [], 1, 1⟩ 1 99 1 none none (by decide)
    (by simp)).1 (by rfl)

/-- Database for the C6 counterexample: two tees in stock. -/
def lowStockDb : CartDb := ⟨[⟨1, "Tee", 10, none, "", 3, 2⟩], [⟨1, 1, 0, 0, 0⟩], [], 2, 1⟩

/-- Counterexample to C6 as stated: the duplicated controller's `addItem`
accepts a quantity of 5 against a stock of 2 — there is no
`InsufficientStock` failure on this path, and the item is persisted. -/
theorem addItem_ignores_stock :
    (⟨1, "Tee", 10, none, "", 3, 2⟩ : Product).stock = 2 ∧
    (addItem lowStockDb 1 1 5 none none).1 = .ok ⟨1, 1, 1, 5, none, none⟩ ∧
    (addItem lowStockDb 1 1 5 none none).2.items = [⟨1, 1, 1, 5, none, none⟩] :=
  ⟨rfl, rfl, rfl⟩

/-- Database for the C2 counterexample: an empty cart with zeroed aggregates. -/
def aggDb : CartDb := ⟨[⟨1, "Tee", 10, none, "", 3, 5⟩], [⟨1, 1, 0, 0, 0⟩], [], 2, 1⟩

/-- Counterexample to C2 as stated: after a successful `addCartItem` the
cart's persisted `subtotal` (still 0) disagrees with the sum recomputed from
the item table (20) — this variant never updates the aggregates. -/
theorem addCartItem_breaks_aggregates :
    (addCartItem aggDb 1 1 2 none none).1 = .ok ⟨1, 1, 1, 2, none, none⟩ ∧
    (addCartItem aggDb 1 1 2 none none).2.carts = [⟨1, 1, 0, 0, 0⟩] ∧
    itemsSubtotal (addCartItem aggDb 1 1 2 none none).2 1 = 20 ∧
    ¬ ((⟨1, 1, 0, 0, 0⟩ : Cart).subtotal
        = itemsSubtotal (addCartItem aggDb 1 1 2 none none).2 1) := by
  have hdb : (addCartItem aggDb 1 1 2 none none).2
      = ⟨[⟨1, "Tee", 10, none, "", 3, 5⟩], [⟨1, 1, 0, 0, 0⟩], [⟨1, 1, 1, 2, none, none⟩], 2, 2⟩ :=
    rfl
  have h20 : itemsSubtotal (addCartItem aggDb 1 1 2 none none).2 1 = 20 := by
    rw [hdb]
    simp [itemsSubtotal, priceOf]
    norm_num
  refine ⟨rfl, rfl, h20, ?_⟩
  rw [h20]
  norm_num

theorem sum_filter_append {α β : Type} [AddCommMonoid β] (l : List α) (x : α)
    (q : α → Bool) (f : α → β) :
    (((l ++ [x]).filter q).map f).sum
      = ((l.filter q).map f).sum + (if q x then f x else 0) := by
  by_cases h : q x <;> simp [List.filter_append, h]

theorem map_replace_of_forall_ne {α : Type} (l : List α) (κ : α → Nat) (k : Nat) (x' : α)
    (h : ∀ a ∈ l, κ a ≠ k) :
    l.map (fun a => if κ a == k then x' else a) = l := by
  induction l with
  | nil => rfl
  | cons a l ih =>
    have ha : (κ a == k) = false := by
      simpa using h a (List.mem_cons_self a l)
    simp only [List.map_cons, ha, Bool.false_eq_true, if_false,
      ih (fun b hb => h b (List.mem_cons_of_mem a hb))]

theorem sum_filter_map_replace {α β : Type} [AddCommGroup β] (l : List α) (κ : α → Nat)
    (k : Nat) (x x' : α) (q : α → Bool) (f : α → β)
    (hnd : (l.map κ).Nodup) (hfind : l.find? (fun a => κ a == k) = some x) :
    (((l.map (fun a => if κ a == k then x' else a)).filter q).map f).sum
      = ((l.filter q).map f).sum - (if q x then f x else 0) + (if q x' then f x' else 0) := by
  induction l with
  | nil => simp at hfind
  | cons a l ih =>
    by_cases hk : (κ a == k) = true
    · have hx : x = a := by
        have h1 : (a :: l).find? (fun b => κ b == k) = some a :=
          List.find?_cons_of_pos _ hk
        rw [h1] at hfind
        exact (Option.some_inj.mp hfind).symm
      have hne : ∀ b ∈ l, κ b ≠ k := by
        intro b hb heq
        have hmem : κ a ∈ l.map κ := by
          rw [beq_iff_eq] at hk
          rw [hk, ← heq]
          exact List.mem_map_of_mem κ hb
        exact (List.nodup_cons.mp hnd).1 hmem
      subst hx
      rw [List.map_cons, if_pos hk, map_replace_of_forall_ne l κ k x' hne,
        List.filter_cons, List.filter_cons]
      by_cases hq1 : q x = true <;> by_cases hq2 : q x' = true
      · rw [if_pos hq2, if_pos hq1, List.map_cons, List.sum_cons, List.map_cons, List.sum_cons,
          if_pos hq1, if_pos hq2]
        abel
      · rw [if_neg hq2, if_pos hq1, List.map_cons, List.sum_cons, if_pos hq1, if_neg hq2]
        abel
      · rw [if_pos hq2, if_neg hq1, List.map_cons, List.sum_cons, if_neg hq1, if_pos hq2]
        abel
      · rw [if_neg hq2, if_neg hq1, if_neg hq1, if_neg hq2]
        abel
    · have hx : l.find? (fun b => κ b == k) = some x := by
        have h1 : (a :: l).find? (fun b => κ b == k) = l.find? (fun b => κ b == k) :=
          List.find?_cons_of_neg _ (by simpa using hk)
        rw [h1] at hfind
        exact hfind
      have ihs := ih (List.nodup_cons.mp hnd).2 hx
      rw [List.map_cons, if_neg hk, List.filter_cons, List.filter_cons]
      by_cases hq1 : q a = true
      · rw [if_pos hq1, if_pos hq1, List.map_cons, List.sum_cons, List.map_cons, List.sum_cons,
          ihs]
        abel
      · rw [if_neg hq1, if_neg hq1, ihs]

theorem sum_filter_erase {α β : Type} [AddCommGroup β] (l : List α) (κ : α → Nat)
    (k : Nat) (x : α) (q : α → Bool) (f : α → β)
    (hnd : (l.map κ).Nodup) (hfind : l.find? (fun a => κ a == k) = some x) :
    (((l.filter (fun a => κ a != k)).filter q).map f).sum
      = ((l.filter q).map f).sum - (if q x then f x else 0) := by
  induction l with
  | nil => simp at hfind
  | cons a l ih =>
    by_cases hk : (κ a == k) = true
    · have hx : x = a := by
        have h1 : (a :: l).find? (fun b => κ b == k) = some a :=
          List.find?_cons_of_pos _ hk
        rw [h1] at hfind
        exact (Option.some_inj.mp hfind).symm
      have hne : ∀ b ∈ l, κ b ≠ k := by
        intro b hb heq
        have hmem : κ a ∈ l.map κ := by
          rw [beq_iff_eq] at hk
          rw [hk, ← heq]
          exact List.mem_map_of_mem κ hb
        exact (List.nodup_cons.mp hnd).1 hmem
      have hrest : l.filter (fun a => κ a != k) = l := by
        rw [List.filter_eq_self]
        intro b hb
        simpa using hne b hb
      subst hx
      have hkne : ¬ ((κ x != k) = true) := by simp [bne]; simpa using hk
      rw [List.filter_cons, if_neg hkne, hrest, List.filter_cons]
      by_cases hq1 : q x = true
      · rw [if_pos hq1, List.map_cons, List.sum_cons, if_pos hq1]
        abel
      · rw [if_neg hq1, if_neg hq1]
        abel
    · have hx : l.find? (fun b => κ b == k) = some x := by
        have h1 : (a :: l).find? (fun b => κ b == k) = l.find? (fun b => κ b == k) :=
          List.find?_cons_of_neg _ (by simpa using hk)
        rw [h1] at hfind
        exact hfind
      have ihs := ih (List.nodup_cons.mp hnd).2 hx
      have hkne : (κ a != k) = true := by
        simp [bne]
        simpa using hk
      rw [List.filter_cons, if_pos hkne, List.filter_cons, List.filter_cons]
      by_cases hq1 : q a = true
      · rw [if_pos hq1, if_pos hq1, List.map_cons, List.sum_cons, List.map_cons, List.sum_cons,
          ihs]
        abel
      · rw [if_neg hq1, if_neg hq1, ihs]

theorem filter_filter_of_imp_false {α : Type} (l : List α) (p q : α → Bool)
    (h : ∀ a ∈ l, q a = true → p a = false) :
    (l.filter p).filter q = [] := by
  induction l with
  | nil => rfl
  | cons a l ih =>
    have ihs := ih (fun b hb => h b (List.mem_cons_of_mem a hb))
    by_cases hp : p a = true
    · have hq : q a = false := by
        cases hqa : q a with
        | false => rfl
        | true => exact absurd hp (by simp [h a (List.mem_cons_self a l) hqa])
      simp [List.filter_cons, hp, hq, ihs]
    · simp [List.filter_cons, hp, ihs]

theorem filter_filter_of_imp_true {α : Type} (l : List α) (p q : α → Bool)
    (h : ∀ a ∈ l, q a = true → p a = true) :
    (l.filter p).filter q = l.filter q := by
  induction l with
  | nil => rfl
  | cons a l ih =>
    have ihs := ih (fun b hb => h b (List.mem_cons_of_mem a hb))
    by_cases hp : p a = true
    · by_cases hq : q a = true <;> simp [List.filter_cons, hp, hq, ihs]
    · have hq : q a = false := by
        cases hqa : q a with
        | false => rfl
        | true => exact absurd (h a (List.mem_cons_self a l) hqa) hp
      simp [List.filter_cons, hp, hq, ihs]

theorem nodup_map_append_fresh {α : Type} (l : List α) (x : α) (κ : α → Nat) (n : Nat)
    (hnd : (l.map κ).Nodup) (hlt : ∀ a ∈ l, κ a < n) (hx : κ x = n) :
    ((l ++ [x]).map κ).Nodup := by
  rw [List.map_append, List.nodup_append]
  refine ⟨hnd, by simp, ?_⟩
  intro m hm
  simp only [List.map_cons, List.map_nil, List.mem_singleton]
  obtain ⟨a, ha, rfl⟩ := List.mem_map.mp hm
  intro heq
  rw [hx] at heq
  exact absurd heq (Nat.ne_of_lt (hlt a ha))

theorem itemsSubtotal_mk (ps : List Product) (cs : List Cart) (its : List CartItem)
    (n m k : Nat) :
    itemsSubtotal ⟨ps, cs, its, n, m⟩ k
      = ((its.filter (fun i => i.cartId == k)).map
          (fun i => priceOf ps i.productId * (i.quantity : Rat))).sum := rfl

theorem itemsPoints_mk (ps : List Product) (cs : List Cart) (its : List CartItem)
    (n m k : Nat) :
    itemsPoints ⟨ps, cs, its, n, m⟩ k
      = ((its.filter (fun i => i.cartId == k)).map
          (fun i => pointsOf ps i.productId * i.quantity)).sum := rfl

theorem filter_cartId_eq_nil (db : CartDb) (k : Nat)
    (hk : ∀ i ∈ db.items, i.cartId ≠ k) :
    db.items.filter (fun i => i.cartId == k) = [] := by
  rw [List.filter_eq_nil_iff]
  intro i hi
  simpa using hk i hi

theorem getOrCreateCart_spec (db : CartDb) (u : Nat) (cart : Cart) (db1 : CartDb)
    (hg : getOrCreateCart db u = (cart, db1)) (h : CartInv db) :
    CartInv db1 ∧ db1.products = db.products ∧ db1.items = db.items
      ∧ db1.nextItemId = db.nextItemId
      ∧ cart.subtotal = itemsSubtotal db1 cart.id
      ∧ cart.estimatedLoyaltyPoints = itemsPoints db1 cart.id
      ∧ cart.id < db1.nextCartId := by
  unfold getOrCreateCart at hg
  cases hc : db.carts.find? (fun c => c.userId == u) with
  | some c =>
    simp only [hc] at hg
    obtain ⟨rfl, rfl⟩ : c = cart ∧ db = db1 := by
      exact ⟨congrArg Prod.fst hg, congrArg Prod.snd hg⟩
    have hmem := List.mem_of_find?_eq_some hc
    exact ⟨h, rfl, rfl, rfl, (h.2 c hmem).1, (h.2 c hmem).2, h.1.2.1 c hmem⟩
  | none =>
    simp only [hc] at hg
    have hcart : cart = (⟨db.nextCartId, u, 0, 0, 0⟩ : Cart) := (congrArg Prod.fst hg).symm
    have hdb1 : db1 = ⟨db.products, db.carts ++ [⟨db.nextCartId, u, 0, 0, 0⟩], db.items, db.nextCartId + 1, db.nextItemId⟩ := (congrArg Prod.snd hg).symm
    subst hcart
    subst hdb1
    have hempty : db.items.filter (fun i => i.cartId == db.nextCartId) = [] :=
      filter_cartId_eq_nil db db.nextCartId
        (fun i hi => Nat.ne_of_lt (h.1.2.2.1 i hi))
    have hsub0 : itemsSubtotal ⟨db.products, db.carts ++ [⟨db.nextCartId, u, 0, 0, 0⟩], db.items, db.nextCartId + 1, db.nextItemId⟩ db.nextCartId = 0 := by
      rw [itemsSubtotal_mk, hempty]
      rfl
    have hpts0 : itemsPoints ⟨db.products, db.carts ++ [⟨db.nextCartId, u, 0, 0, 0⟩], db.items, db.nextCartId + 1, db.nextItemId⟩ db.nextCartId = 0 := by
      rw [itemsPoints_mk, hempty]
      rfl
    refine ⟨⟨⟨h.1.1, ?_, ?_, h.1.2.2.2⟩, ?_⟩, rfl, rfl, rfl, hsub0.symm, hpts0.symm,
      Nat.lt_succ_self _⟩
    · intro c hcm
      rcases List.mem_append.mp hcm with hold | hnew
      · exact Nat.lt_trans (h.1.2.1 c hold) (Nat.lt_succ_self _)
      · rw [List.mem_singleton.mp hnew]
        exact Nat.lt_succ_self _
    · intro i hi
      exact Nat.lt_trans (h.1.2.2.1 i hi) (Nat.lt_succ_self _)
    · intro c hcm
      rcases List.mem_append.mp hcm with hold | hnew
      · exact h.2 c hold
      · rw [List.mem_singleton.mp hnew]
        exact ⟨hsub0.symm, hpts0.symm⟩

theorem map_key_of_replace {α : Type} (l : List α) (κ : α → Nat) (k : Nat) (x' : α)
    (hx : κ x' = k) :
    (l.map (fun a => if κ a == k then x' else a)).map κ = l.map κ := by
  rw [List.map_map]
  apply List.map_congr_left
  intro a _
  show κ (if (κ a == k) = true then x' else a) = κ a
  by_cases hk : (κ a == k) = true
  · rw [if_pos hk, hx]
    exact (by simpa using hk : κ a = k).symm
  · rw [if_neg hk]

theorem cartInv_insert (db1 : CartDb) (cart : Cart) (product : Product)
    (pid : Nat) (q : Int) (size color : Option String) (updCart : Cart)
    (h1 : CartInv db1) (hlt : cart.id < db1.nextCartId)
    (hsub : cart.subtotal = itemsSubtotal db1 cart.id)
    (hpts : cart.estimatedLoyaltyPoints = itemsPoints db1 cart.id)
    (hprice : priceOf db1.products pid = product.price)
    (hpoints : pointsOf db1.products pid = product.loyaltyPoints)
    (hupd : updCart = ⟨cart.id, cart.userId,
      cart.subtotal + product.price * (q : Rat),
      cart.total + product.price * (q : Rat),
      cart.estimatedLoyaltyPoints + product.loyaltyPoints * q⟩) :
    CartInv ⟨db1.products,
      db1.carts.map (fun c => if c.id == cart.id then updCart else c),
      db1.items ++ [⟨db1.nextItemId, cart.id, pid, q, size, color⟩],
      db1.nextCartId, db1.nextItemId + 1⟩ := by
  subst hupd
  have hsubK : ∀ (cs : List Cart) (n m k : Nat),
      itemsSubtotal ⟨db1.products, cs,
        db1.items ++ [⟨db1.nextItemId, cart.id, pid, q, size, color⟩], n, m⟩ k
      = itemsSubtotal db1 k
        + (if (cart.id == k) = true then product.price * (q : Rat) else 0) := by
    intro cs n m k
    rw [itemsSubtotal_mk, sum_filter_append, ← hprice]
    rfl
  have hptsK : ∀ (cs : List Cart) (n m k : Nat),
      itemsPoints ⟨db1.products, cs,
        db1.items ++ [⟨db1.nextItemId, cart.id, pid, q, size, color⟩], n, m⟩ k
      = itemsPoints db1 k
        + (if (cart.id == k) = true then product.loyaltyPoints * q else 0) := by
    intro cs n m k
    rw [itemsPoints_mk, sum_filter_append, ← hpoints]
    rfl
  constructor
  · refine ⟨?_, ?_, ?_, ?_⟩
    · exact nodup_map_append_fresh db1.items _ (fun i => i.id) db1.nextItemId
        h1.1.1 h1.1.2.2.2 rfl
    · intro c hc
      obtain ⟨c0, hc0, rfl⟩ := List.mem_map.mp hc
      by_cases hcid : (c0.id == cart.id) = true
      · rw [if_pos hcid]
        exact hlt
      · rw [if_neg hcid]
        exact h1.1.2.1 c0 hc0
    · intro i hi
      rcases List.mem_append.mp hi with hold | hnew
      · exact h1.1.2.2.1 i hold
      · rw [List.mem_singleton.mp hnew]
        exact hlt
    · intro i hi
      rcases List.mem_append.mp hi with hold | hnew
      · exact Nat.lt_trans (h1.1.2.2.2 i hold) (Nat.lt_succ_self _)
      · rw [List.mem_singleton.mp hnew]
        exact Nat.lt_succ_self _
  · intro c2 hc2
    obtain ⟨c0, hc0, rfl⟩ := List.mem_map.mp hc2
    by_cases hcid : (c0.id == cart.id) = true
    · rw [if_pos hcid]
      refine ⟨?_, ?_⟩
      · show cart.subtotal + product.price * (q : Rat) = itemsSubtotal _ cart.id
        rw [hsubK _ _ _ cart.id]
        rw [if_pos (by simp)]
        rw [hsub]
      · show cart.estimatedLoyaltyPoints + product.loyaltyPoints * q = itemsPoints _ cart.id
        rw [hptsK _ _ _ cart.id]
        rw [if_pos (by simp)]
        rw [hpts]
    · rw [if_neg hcid]
      have hne : (cart.id == c0.id) = false := by
        have : ¬ c0.id = cart.id := by simpa using hcid
        simp only [beq_eq_false_iff_ne, ne_eq]
        exact fun heq => this heq.symm
      refine ⟨?_, ?_⟩
      · rw [hsubK _ _ _ c0.id, hne]
        simp only [Bool.false_eq_true, if_false, add_zero]
        exact (h1.2 c0 hc0).1
      · rw [hptsK _ _ _ c0.id, hne]
        simp only [Bool.false_eq_true, if_false, add_zero]
        exact (h1.2 c0 hc0).2

theorem addItem_inv (db : CartDb) (u productId : Nat) (q : Int) (size color : Option String)
    (h : CartInv db) : CartInv (addItem db u productId q size color).2 := by
  unfold addItem
  by_cases hu : u = 0
  · rw [if_pos hu]
    exact h
  rw [if_neg hu]
  cases hg : getOrCreateCart db u with
  | mk cart db1 =>
    obtain ⟨h1, _hp, _hi, _hn, hsub, hpts, hlt⟩ := getOrCreateCart_spec db u cart db1 hg h
    cases hp : db1.products.find? (fun p => p.id == productId) with
    | none =>
      simp only [hg, hp]
      exact h1
    | some product =>
      simp only [hg, hp]
      exact cartInv_insert db1 cart product productId q size color _ h1 hlt hsub hpts
        (by unfold priceOf; rw [hp]) (by unfold pointsOf; rw [hp]) rfl

theorem cartInv_update (db : CartDb) (cart : Cart) (itemId : Nat) (item : CartItem)
    (product : Product) (q : Int) (size color : Option String)
    (h : CartInv db) (hcmem : cart ∈ db.carts)
    (hfind : db.items.find? (fun i => i.id == itemId) = some item)
    (hcid : item.cartId = cart.id)
    (hp : db.products.find? (fun p => p.id == item.productId) = some product) :
    CartInv ⟨db.products,
      db.carts.map (fun c => if c.id == cart.id then
        (⟨cart.id, cart.userId,
          cart.subtotal + (product.price * (q : Rat) - product.price * (item.quantity : Rat)),
          cart.total + (product.price * (q : Rat) - product.price * (item.quantity : Rat)),
          cart.estimatedLoyaltyPoints
            + (product.loyaltyPoints * q - product.loyaltyPoints * item.quantity)⟩ : Cart)
        else c),
      db.items.map (fun i => if i.id == itemId then
        (⟨item.id, item.cartId, item.productId, q, size, color⟩ : CartItem) else i),
      db.nextCartId, db.nextItemId⟩ := by
  have hprice : priceOf db.products item.productId = product.price := by
    unfold priceOf
    rw [hp]
  have hpoints : pointsOf db.products item.productId = product.loyaltyPoints := by
    unfold pointsOf
    rw [hp]
  have hid : item.id = itemId := by simpa using List.find?_some hfind
  have hmem : item ∈ db.items := List.mem_of_find?_eq_some hfind
  have hsubK : ∀ (cs : List Cart) (n m k : Nat),
      itemsSubtotal ⟨db.products, cs,
        db.items.map (fun i => if i.id == itemId then
          (⟨item.id, item.cartId, item.productId, q, size, color⟩ : CartItem) else i), n, m⟩ k
      = itemsSubtotal db k
        - (if (item.cartId == k) = true then product.price * (item.quantity : Rat) else 0)
        + (if (item.cartId == k) = true then product.price * (q : Rat) else 0) := by
    intro cs n m k
    rw [itemsSubtotal_mk,
      sum_filter_map_replace db.items (fun i => i.id) itemId item
        (⟨item.id, item.cartId, item.productId, q, size, color⟩ : CartItem)
        (fun i => i.cartId == k)
        (fun i => priceOf db.products i.productId * (i.quantity : Rat)) h.1.1 hfind]
    dsimp only
    rw [hprice]
    rfl
  have hptsK : ∀ (cs : List Cart) (n m k : Nat),
      itemsPoints ⟨db.products, cs,
        db.items.map (fun i => if i.id == itemId then
          (⟨item.id, item.cartId, item.productId, q, size, color⟩ : CartItem) else i), n, m⟩ k
      = itemsPoints db k
        - (if (item.cartId == k) = true then product.loyaltyPoints * item.quantity else 0)
        + (if (item.cartId == k) = true then product.loyaltyPoints * q else 0) := by
    intro cs n m k
    rw [itemsPoints_mk,
      sum_filter_map_replace db.items (fun i => i.id) itemId item
        (⟨item.id, item.cartId, item.productId, q, size, color⟩ : CartItem)
        (fun i => i.cartId == k)
        (fun i => pointsOf db.products i.productId * i.quantity) h.1.1 hfind]
    dsimp only
    rw [hpoints]
    rfl
  constructor
  · refine ⟨?_, ?_, ?_, ?_⟩
    · rw [map_key_of_replace db.items (fun i => i.id) itemId
        (⟨item.id, item.cartId, item.productId, q, size, color⟩ : CartItem) hid]
      exact h.1.1
    · intro c hcm
      obtain ⟨c0, hc0, rfl⟩ := List.mem_map.mp hcm
      by_cases hc0id : (c0.id == cart.id) = true
      · rw [if_pos hc0id]
        show cart.id < db.nextCartId
        exact h.1.2.1 cart hcmem
      · rw [if_neg hc0id]
        exact h.1.2.1 c0 hc0
    · intro i hi2
      obtain ⟨i0, hi0, rfl⟩ := List.mem_map.mp hi2
      by_cases hi0id : (i0.id == itemId) = true
      · rw [if_pos hi0id]
        show item.cartId < db.nextCartId
        exact h.1.2.2.1 item hmem
      · rw [if_neg hi0id]
        exact h.1.2.2.1 i0 hi0
    · intro i hi2
      obtain ⟨i0, hi0, rfl⟩ := List.mem_map.mp hi2
      by_cases hi0id : (i0.id == itemId) = true
      · rw [if_pos hi0id]
        show item.id < db.nextItemId
        exact h.1.2.2.2 item hmem
      · rw [if_neg hi0id]
        exact h.1.2.2.2 i0 hi0
  · intro c2 hc2
    obtain ⟨c0, hc0, rfl⟩ := List.mem_map.mp hc2
    by_cases hc0id : (c0.id == cart.id) = true
    · rw [if_pos hc0id]
      refine ⟨?_, ?_⟩
      · show cart.subtotal + (product.price * (q : Rat) - product.price * (item.quantity : Rat))
          = itemsSubtotal _ cart.id
        rw [hsubK _ _ _ cart.id, hcid, if_pos (by simp), if_pos (by simp),
          (h.2 cart hcmem).1]
        ring
      · show cart.estimatedLoyaltyPoints
            + (product.loyaltyPoints * q - product.loyaltyPoints * item.quantity)
          = itemsPoints _ cart.id
        rw [hptsK _ _ _ cart.id, hcid, if_pos (by simp), if_pos (by simp),
          (h.2 cart hcmem).2]
        ring
    · rw [if_neg hc0id]
      have hne : (item.cartId == c0.id) = false := by
        rw [hcid]
        have hx : ¬ c0.id = cart.id := by simpa using hc0id
        simp only [beq_eq_false_iff_ne, ne_eq]
        exact fun heq => hx heq.symm
      refine ⟨?_, ?_⟩
      · rw [hsubK _ _ _ c0.id, hne]
        simp only [Bool.false_eq_true, if_false, sub_zero, add_zero]
        exact (h.2 c0 hc0).1
      · rw [hptsK _ _ _ c0.id, hne]
        simp only [Bool.false_eq_true, if_false, sub_zero, add_zero]
        exact (h.2 c0 hc0).2

theorem updateItem_inv (db : CartDb) (u itemId : Nat) (q : Int) (size color : Option String)
    (h : CartInv db) : CartInv (updateItem db u itemId q size color).2 := by
  unfold updateItem
  by_cases hu : u = 0
  · rw [if_pos hu]
    exact h
  rw [if_neg hu]
  cases hc : db.carts.find? (fun c => c.userId == u) with
  | none =>
    simp only [hc]
    exact h
  | some cart =>
    simp only [hc]
    cases hi : db.items.find? (fun i => i.id == itemId) with
    | none =>
      simp only [hi]
      exact h
    | some item =>
      simp only [hi]
      by_cases hcid : item.cartId = cart.id
      · rw [if_neg (show ¬ item.cartId ≠ cart.id from fun hne => hne hcid)]
        cases hp : db.products.find? (fun p => p.id == item.productId) with
        | none =>
          simp only [hp]
          exact h
        | some product =>
          simp only [hp]
          exact cartInv_update db cart itemId item product q size color h
            (List.mem_of_find?_eq_some hc) hi hcid hp
      · rw [if_pos hcid]
        exact h

theorem cartInv_erase (db : CartDb) (cart : Cart) (itemId : Nat) (item : CartItem)
    (product : Product)
    (h : CartInv db) (hcmem : cart ∈ db.carts)
    (hfind : db.items.find? (fun i => i.id == itemId) = some item)
    (hcid : item.cartId = cart.id)
    (hp : db.products.find? (fun p => p.id == item.productId) = some product) :
    CartInv ⟨db.products,
      db.carts.map (fun c => if c.id == cart.id then
        (⟨cart.id, cart.userId,
          cart.subtotal - product.price * (item.quantity : Rat),
          cart.total - product.price * (item.quantity : Rat),
          cart.estimatedLoyaltyPoints - product.loyaltyPoints * item.quantity⟩ : Cart)
        else c),
      db.items.filter (fun i => i.id != itemId),
      db.nextCartId, db.nextItemId⟩ := by
  have hprice : priceOf db.products item.productId = product.price := by
    unfold priceOf
    rw [hp]
  have hpoints : pointsOf db.products item.productId = product.loyaltyPoints := by
    unfold pointsOf
    rw [hp]
  have hmem : item ∈ db.items := List.mem_of_find?_eq_some hfind
  have hsubK : ∀ (cs : List Cart) (n m k : Nat),
      itemsSubtotal ⟨db.products, cs, db.items.filter (fun i => i.id != itemId), n, m⟩ k
      = itemsSubtotal db k
        - (if (item.cartId == k) = true then product.price * (item.quantity : Rat) else 0) := by
    intro cs n m k
    rw [itemsSubtotal_mk,
      sum_filter_erase db.items (fun i => i.id) itemId item (fun i => i.cartId == k)
        (fun i => priceOf db.products i.productId * (i.quantity : Rat)) h.1.1 hfind]
    rw [hprice]
    rfl
  have hptsK : ∀ (cs : List Cart) (n m k : Nat),
      itemsPoints ⟨db.products, cs, db.items.filter (fun i => i.id != itemId), n, m⟩ k
      = itemsPoints db k
        - (if (item.cartId == k) = true then product.loyaltyPoints * item.quantity else 0) := by
    intro cs n m k
    rw [itemsPoints_mk,
      sum_filter_erase db.items (fun i => i.id) itemId item (fun i => i.cartId == k)
        (fun i => pointsOf db.products i.productId * i.quantity) h.1.1 hfind]
    rw [hpoints]
    rfl
  constructor
  · refine ⟨?_, ?_, ?_, ?_⟩
    · exact List.Nodup.sublist (List.Sublist.map _ (List.filter_sublist _)) h.1.1
    · intro c hcm
      obtain ⟨c0, hc0, rfl⟩ := List.mem_map.mp hcm
      by_cases hc0id : (c0.id == cart.id) = true
      · rw [if_pos hc0id]
        show cart.id < db.nextCartId
        exact h.1.2.1 cart hcmem
      · rw [if_neg hc0id]
        exact h.1.2.1 c0 hc0
    · intro i hi2
      exact h.1.2.2.1 i (List.mem_of_mem_filter hi2)
    · intro i hi2
      exact h.1.2.2.2 i (List.mem_of_mem_filter hi2)
  · intro c2 hc2
    obtain ⟨c0, hc0, rfl⟩ := List.mem_map.mp hc2
    by_cases hc0id : (c0.id == cart.id) = true
    · rw [if_pos hc0id]
      refine ⟨?_, ?_⟩
      · show cart.subtotal - product.price * (item.quantity : Rat) = itemsSubtotal _ cart.id
        rw [hsubK _ _ _ cart.id, hcid, if_pos (by simp), (h.2 cart hcmem).1]
      · show cart.estimatedLoyaltyPoints - product.loyaltyPoints * item.quantity
          = itemsPoints _ cart.id
        rw [hptsK _ _ _ cart.id, hcid, if_pos (by simp), (h.2 cart hcmem).2]
    · rw [if_neg hc0id]
      have hne : (item.cartId == c0.id) = false := by
        rw [hcid]
        have hx : ¬ c0.id = cart.id := by simpa using hc0id
        simp only [beq_eq_false_iff_ne, ne_eq]
        exact fun heq => hx heq.symm
      refine ⟨?_, ?_⟩
      · rw [hsubK _ _ _ c0.id, hne]
        simp only [Bool.false_eq_true, if_false, sub_zero]
        exact (h.2 c0 hc0).1
      · rw [hptsK _ _ _ c0.id, hne]
        simp only [Bool.false_eq_true, if_false, sub_zero]
        exact (h.2 c0 hc0).2

theorem removeItem_inv (db : CartDb) (u itemId : Nat)
    (h : CartInv db) : CartInv (removeItem db u itemId).2 := by
  unfold removeItem
  by_cases hu : u = 0
  · rw [if_pos hu]
    exact h
  rw [if_neg hu]
  cases hc : db.carts.find? (fun c => c.userId == u) with
  | none =>
    simp only [hc]
    exact h
  | some cart =>
    simp only [hc]
    cases hi : db.items.find? (fun i => i.id == itemId) with
    | none =>
      simp only [hi]
      exact h
    | some item =>
      simp only [hi]
      by_cases hcid : item.cartId = cart.id
      · rw [if_neg (show ¬ item.cartId ≠ cart.id from fun hne => hne hcid)]
        cases hp : db.products.find? (fun p => p.id == item.productId) with
        | none =>
          simp only [hp]
          exact h
        | some product =>
          simp only [hp]
          exact cartInv_erase db cart itemId item product h
            (List.mem_of_find?_eq_some hc) hi hcid hp
      · rw [if_pos hcid]
        exact h

theorem cartInv_clear (db : CartDb) (cart : Cart)
    (h : CartInv db) (hcmem : cart ∈ db.carts) :
    CartInv ⟨db.products,
      db.carts.map (fun c => if c.id == cart.id then
        (⟨cart.id, cart.userId, 0, 0, 0⟩ : Cart) else c),
      db.items.filter (fun i => i.cartId != cart.id),
      db.nextCartId, db.nextItemId⟩ := by
  have hsubK : ∀ (cs : List Cart) (n m k : Nat), k ≠ cart.id →
      itemsSubtotal ⟨db.products, cs, db.items.filter (fun i => i.cartId != cart.id), n, m⟩ k
      = itemsSubtotal db k := by
    intro cs n m k hk
    rw [itemsSubtotal_mk,
      filter_filter_of_imp_true db.items (fun i => i.cartId != cart.id)
        (fun i => i.cartId == k) ?_]
    · rfl
    · intro a _ ha
      have : a.cartId = k := by simpa using ha
      simp [this, hk]
  have hptsK : ∀ (cs : List Cart) (n m k : Nat), k ≠ cart.id →
      itemsPoints ⟨db.products, cs, db.items.filter (fun i => i.cartId != cart.id), n, m⟩ k
      = itemsPoints db k := by
    intro cs n m k hk
    rw [itemsPoints_mk,
      filter_filter_of_imp_true db.items (fun i => i.cartId != cart.id)
        (fun i => i.cartId == k) ?_]
    · rfl
    · intro a _ ha
      have : a.cartId = k := by simpa using ha
      simp [this, hk]
  have hzero : (db.items.filter (fun i => i.cartId != cart.id)).filter
      (fun i => i.cartId == cart.id) = [] := by
    apply filter_filter_of_imp_false
    intro a _ ha
    have : a.cartId = cart.id := by simpa using ha
    simp [this]
  constructor
  · refine ⟨?_, ?_, ?_, ?_⟩
    · exact List.Nodup.sublist (List.Sublist.map _ (List.filter_sublist _)) h.1.1
    · intro c hcm
      obtain ⟨c0, hc0, rfl⟩ := List.mem_map.mp hcm
      by_cases hc0id : (c0.id == cart.id) = true
      · rw [if_pos hc0id]
        show cart.id < db.nextCartId
        exact h.1.2.1 cart hcmem
      · rw [if_neg hc0id]
        exact h.1.2.1 c0 hc0
    · intro i hi2
      exact h.1.2.2.1 i (List.mem_of_mem_filter hi2)
    · intro i hi2
      exact h.1.2.2.2 i (List.mem_of_mem_filter hi2)
  · intro c2 hc2
    obtain ⟨c0, hc0, rfl⟩ := List.mem_map.mp hc2
    by_cases hc0id : (c0.id == cart.id) = true
    · rw [if_pos hc0id]
      refine ⟨?_, ?_⟩
      · show (0 : Rat) = itemsSubtotal _ cart.id
        rw [itemsSubtotal_mk, hzero]
        rfl
      · show (0 : Int) = itemsPoints _ cart.id
        rw [itemsPoints_mk, hzero]
        rfl
    · rw [if_neg hc0id]
      have hk : c0.id ≠ cart.id := by simpa using hc0id
      refine ⟨?_, ?_⟩
      · rw [hsubK _ _ _ c0.id hk]
        exact (h.2 c0 hc0).1
      · rw [hptsK _ _ _ c0.id hk]
        exact (h.2 c0 hc0).2

theorem clearCart_inv (db : CartDb) (u : Nat)
    (h : CartInv db) : CartInv (clearCart db u).2 := by
  unfold clearCart
  by_cases hu : u = 0
  · rw [if_pos hu]
    exact h
  rw [if_neg hu]
  cases hc : db.carts.find? (fun c => c.userId == u) with
  | none =>
    simp only [hc]
    exact h
  | some cart =>
    simp only [hc]
    exact cartInv_clear db cart h (List.mem_of_find?_eq_some hc)

/-- One request against the duplicated cart controller, for stating the
aggregate invariant over arbitrary operation sequences. -/
inductive CartOp where
  | add (userId productId : Nat) (quantity : Int) (size color : Option String)
  | update (userId itemId : Nat) (quantity : Int) (size color : Option String)
  | remove (userId itemId : Nat)
  | clear (userId : Nat)

/-- State effect of a single cart operation (responses discarded). -/
def applyCartOp (db : CartDb) : CartOp → CartDb
  | .add u p q s c => (addItem db u p q s c).2
  | .update u i q s c => (updateItem db u i q s c).2
  | .remove u i => (removeItem db u i).2
  | .clear u => (clearCart db u).2

/-- State after a sequence of cart operations. -/
def applyCartOps (db : CartDb) (ops : List CartOp) : CartDb :=
  ops.foldl applyCartOp db

theorem cartInv_applyCartOp (db : CartDb) (op : CartOp) (h : CartInv db) :
    CartInv (applyCartOp db op) := by
  cases op with
  | add u p q s c => exact addItem_inv db u p q s c h
  | update u i q s c => exact updateItem_inv db u i q s c h
  | remove u i => exact removeItem_inv db u i h
  | clear u => exact clearCart_inv db u h

/-- C2 (amended): over the duplicated cart controller — the variant that
maintains the aggregates incrementally — any finite sequence of
`addItem`/`updateItem`/`removeItem`/`clearCart` operations preserves
`subtotal = Σ price × quantity` and `estimatedLoyaltyPoints = Σ loyaltyPoints
× quantity` for every persisted cart, starting from any well-formed
consistent store.  (The `addCartItem` variant of `cart.controller.ts` never
writes the aggregates and violates the invariant; see the counterexample.) -/
theorem cartAggregates_invariant_preserved (ops : List CartOp) (db : CartDb)
    (h : CartInv db) : CartAgg (applyCartOps db ops) := by
  suffices hs : CartInv (applyCartOps db ops) from hs.2
  induction ops generalizing db with
  | nil => exact h
  | cons op ops ih =>
    exact ih (applyCartOp db op) (cartInv_applyCartOp db op h)

/-- Initial store for the C2 witness: one product, no carts, no items. -/
def seedDb : CartDb := ⟨[teeProduct], [], [], 1, 1⟩

/-- Witness for C2 at a concrete run: two adds and an update on a fresh
store, with the invariant hypotheses discharged by evaluation. -/
theorem cartAggregates_invariant_preserved_witness :
    CartAgg (applyCartOps seedDb
      [.add 1 1 2 none none, .add 1 1 1 (some "M") none, .update 1 1 5 none none]) :=
  cartAggregates_invariant_preserved
    [.add 1 1 2 none none, .add 1 1 1 (some "M") none, .update 1 1 5 none none]
    seedDb (by constructor <;> simp [CartWF, CartAgg, seedDb])

/-- The response of a successful coupon validation. -/
structure CouponValidation where
  isValid : Bool
  discountAmount : Rat
  finalAmount : Rat
deriving DecidableEq

/-- `validateCoupon` (`coupon.controller.ts` lines 68-97): 404 if the code is
unknown, 400 if already used, 400 if `now` is past `expiresAt`; otherwise the
discount is `orderAmount × value / 100` for a `Percentage` coupon and the flat
`value` otherwise, and `finalAmount = orderAmount − discountAmount` with no
clamping. -/
def validateCoupon (coupons : List Coupon) (code : String) (orderAmount : Rat)
    (now : Int) : Except AppError CouponValidation :=
  match coupons.find? (fun c => c.code == code) with
  | none => .error ⟨"Coupon not found", 404⟩
  | some coupon =>
    if coupon.isUsed then .error ⟨"Coupon has already been used", 400⟩
    else if coupon.expiresAt < now then .error ⟨"Coupon has expired", 400⟩
    else
      .ok ⟨true,
        if coupon.couponType = "Percentage" then orderAmount * coupon.value / 100
        else coupon.value,
        orderAmount - (if coupon.couponType = "Percentage"
          then orderAmount * coupon.value / 100 else coupon.value)⟩

/-- A fixed coupon larger than a small order, exhibiting a negative final
amount. -/
def bigFixedCoupon : Coupon := ⟨1, none, "BIG", 30, "Fixed", 1000, false⟩

/-- C7: `validateCoupon` fails with the not-found/already-used/expired errors
under exactly the stated conditions, otherwise returns
`discountAmount = orderAmount × value / 100` for a `Percentage` coupon and
the flat `value` for any other type, with
`finalAmount = orderAmount − discountAmount`; nothing clamps the result, and
a `Fixed` coupon of value 30 against an order of 20 yields a final amount of
−10. -/
theorem validateCoupon_cases (coupons : List Coupon) (code : String) (orderAmount : Rat)
    (now : Int) :
    (coupons.find? (fun c => c.code == code) = none →
       validateCoupon coupons code orderAmount now = .error ⟨"Coupon not found", 404⟩) ∧
    (∀ coupon, coupons.find? (fun c => c.code == code) = some coupon →
       (coupon.isUsed = true →
          validateCoupon coupons code orderAmount now
            = .error ⟨"Coupon has already been used", 400⟩) ∧
       (coupon.isUsed = false → coupon.expiresAt < now →
          validateCoupon coupons code orderAmount now
            = .error ⟨"Coupon has expired", 400⟩) ∧
       (coupon.isUsed = false → now ≤ coupon.expiresAt →
          validateCoupon coupons code orderAmount now
            = .ok ⟨true,
                if coupon.couponType = "Percentage" then orderAmount * coupon.value / 100
                else coupon.value,
                orderAmount - (if coupon.couponType = "Percentage"
                  then orderAmount * coupon.value / 100 else coupon.value)⟩)) ∧
    validateCoupon [bigFixedCoupon] "BIG" 20 0 = .ok ⟨true, 30, -10⟩ := by
  refine ⟨fun hn => ?_, fun coupon hf => ⟨fun hu => ?_, fun hu hexp => ?_, fun hu hok => ?_⟩,
    ?_⟩
  · simp [validateCoupon, hn]
  · simp [validateCoupon, hf, hu]
  · simp [validateCoupon, hf, hu, hexp]
  · have hnexp : ¬ coupon.expiresAt < now := not_lt.mpr hok
    simp [validateCoupon, hf, hu, hnexp]
  · have h30 : (20 : Rat) - 30 = -10 := by norm_num
    simp [validateCoupon, bigFixedCoupon, h30]

/-- Coupon used by the C7 witness. -/
def fixedFive : Coupon := ⟨2, none, "FIX5", 5, "Fixed", 1000, false⟩

/-- Witness for C7 at the spec's concrete example: a `Fixed` coupon of value
5 against an order of 20 gives a discount of 5 and a final amount of 15. -/
theorem validateCoupon_cases_witness :
    validateCoupon [fixedFive] "FIX5" 20 0 = .ok ⟨true, 5, 15⟩ := by
  have h := ((validateCoupon_cases [fixedFive] "FIX5" 20 0).2.1 fixedFive rfl).2.2
    rfl (by norm_num [fixedFive])
  refine h.trans ?_
  norm_num [fixedFive]
  refine ⟨by decide, ?_⟩
  rw [if_neg (by decide : ¬ ("Fixed" : String) = "Percentage")]
  norm_num
